import Mathlib

/-
Shallow embedding of the qq-farm-bot dashboard state service
(src/unnamed/part_000): status snapshot merging with identity-scoped
baseline anchoring, metrics derivation, bounded log buffer, strategy
store and runtime settings store.  JavaScript numbers are modelled as
rationals extended with NaN and the two infinities; JavaScript string
truthiness is modelled by comparison with the empty string.
-/

namespace QQFarm

/-- A JavaScript number: NaN, positive or negative infinity, or a finite
value modelled as a rational. -/
inductive JSNum where
  | nan : JSNum
  | posInf : JSNum
  | negInf : JSNum
  | num : ℚ → JSNum
deriving DecidableEq, Repr

namespace JSNum

/-- Number.isFinite. -/
def isFinite : JSNum → Bool
  | num _ => true
  | _ => false

/-- JavaScript truthiness of a number: NaN and 0 are falsy. -/
def truthy : JSNum → Bool
  | nan => false
  | num q => q != 0
  | _ => true

/-- The JavaScript expression a || b evaluated on numbers. -/
def orElse (a b : JSNum) : JSNum := if a.truthy then a else b

/-- JavaScript strict less-than: false whenever either side is NaN. -/
def lt : JSNum → JSNum → Bool
  | num a, num b => a < b
  | num _, posInf => true
  | negInf, num _ => true
  | negInf, posInf => true
  | _, _ => false

/-- JavaScript less-or-equal: false whenever either side is NaN. -/
def le : JSNum → JSNum → Bool
  | num a, num b => a ≤ b
  | num _, posInf => true
  | negInf, negInf => true
  | negInf, num _ => true
  | negInf, posInf => true
  | posInf, posInf => true
  | _, _ => false

/-- JavaScript subtraction. -/
def sub : JSNum → JSNum → JSNum
  | num a, num b => num (a - b)
  | num _, posInf => negInf
  | num _, negInf => posInf
  | posInf, num _ => posInf
  | negInf, num _ => negInf
  | posInf, negInf => posInf
  | negInf, posInf => negInf
  | _, _ => nan

/-- JavaScript multiplication (0 times an infinity is NaN). -/
def mul : JSNum → JSNum → JSNum
  | num a, num b => num (a * b)
  | num a, posInf => if 0 < a then posInf else if a < 0 then negInf else nan
  | num a, negInf => if 0 < a then negInf else if a < 0 then posInf else nan
  | posInf, num b => if 0 < b then posInf else if b < 0 then negInf else nan
  | negInf, num b => if 0 < b then negInf else if b < 0 then posInf else nan
  | posInf, posInf => posInf
  | posInf, negInf => negInf
  | negInf, posInf => negInf
  | negInf, negInf => posInf
  | _, _ => nan

/-- JavaScript division (division by the zero literal yields a signed
infinity, or NaN for 0/0; an infinity divided by an infinity is NaN). -/
def div : JSNum → JSNum → JSNum
  | num a, num b =>
      if b = 0 then (if 0 < a then posInf else if a < 0 then negInf else nan)
      else num (a / b)
  | num _, posInf => num 0
  | num _, negInf => num 0
  | posInf, num b => if b < 0 then negInf else posInf
  | negInf, num b => if b < 0 then posInf else negInf
  | _, _ => nan

/-- Math.abs. -/
def abs : JSNum → JSNum
  | num a => num |a|
  | posInf => posInf
  | negInf => posInf
  | nan => nan

/-- Math.round: round half toward positive infinity on finite values. -/
def round : JSNum → JSNum
  | num a => num ((⌊a + 1/2⌋ : ℤ) : ℚ)
  | x => x

/-- Math.floor. -/
def floor : JSNum → JSNum
  | num a => num ((⌊a⌋ : ℤ) : ℚ)
  | x => x

/-- Math.max on two arguments: NaN-propagating. -/
def max (a b : JSNum) : JSNum :=
  if a = nan ∨ b = nan then nan else if lt a b then b else a

/-- Math.min on two arguments: NaN-propagating. -/
def min (a b : JSNum) : JSNum :=
  if a = nan ∨ b = nan then nan else if lt b a then b else a

/-- The pattern Number.isFinite(x) ? Number(x) : 0 from the baseline
anchoring code. -/
def toFiniteOr0 : JSNum → ℚ
  | num q => q
  | _ => 0

end JSNum

/-- The JavaScript expression a || b evaluated on strings: the empty
string is the only falsy string. -/
def strOrElse (a b : String) : String := if a = "" then b else a

/-- The mutable status record state.status. -/
structure Status where
  platform : String
  name : String
  level : JSNum
  gold : JSNum
  exp : JSNum
deriving DecidableEq, Repr

/-- The baseline record state.baseline; gold and exp are null until the
baseline is anchored. -/
structure Baseline where
  gold : Option ℚ
  exp : Option ℚ
  ready : Bool
  key : String
deriving DecidableEq, Repr

/-- The part of the dashboard state touched by updateStatus and read by
buildMetrics. -/
structure DashState where
  status : Status
  baseline : Baseline
deriving DecidableEq, Repr

/-- Initial status from the state literal. -/
def initialStatus : Status :=
  { platform := "qq", name := "", level := .num 0, gold := .num 0, exp := .num 0 }

/-- Initial (not ready) baseline from the state literal. -/
def initialBaseline : Baseline :=
  { gold := none, exp := none, ready := false, key := "" }

/-- Initial dashboard state. -/
def initialDashState : DashState :=
  { status := initialStatus, baseline := initialBaseline }

/-- A partial status update: fields absent from the patch retain their
prior values (Object.assign shallow merge). -/
structure StatusPatch where
  platform : Option String := none
  name : Option String := none
  level : Option JSNum := none
  gold : Option JSNum := none
  exp : Option JSNum := none
deriving DecidableEq, Repr

/-- Object.assign(state.status, partial). -/
def mergeStatus (s : Status) (p : StatusPatch) : Status :=
  { platform := p.platform.getD s.platform
    name := p.name.getD s.name
    level := p.level.getD s.level
    gold := p.gold.getD s.gold
    exp := p.exp.getD s.exp }

/-- loginReady = !!name || Number(state.status.level || 0) > 0. -/
def loginReadyOf (s : Status) : Bool :=
  s.name != "" || JSNum.lt (.num 0) (JSNum.orElse s.level (.num 0))

/-- identityKey = loginReady ? platform + ':' + name : ''. -/
def identityKeyOf (s : Status) : String :=
  if loginReadyOf s then s.platform ++ ":" ++ s.name else ""

/-- The baseline invalidation step of updateStatus: a ready baseline whose
stored key differs from a non-empty current identity key is cleared. -/
def invalidateBaseline (b : Baseline) (identityKey : String) : Baseline :=
  if b.ready && identityKey != "" && b.key != "" && identityKey != b.key then
    { gold := none, exp := none, ready := false, key := "" }
  else b

/-- identityChanged = prevName !== state.status.name ||
prevPlatform !== state.status.platform, comparing the pre-merge values
with the merged ones. -/
def identityChangedBy (st : DashState) (p : StatusPatch) : Bool :=
  st.status.name != (mergeStatus st.status p).name ||
    st.status.platform != (mergeStatus st.status p).platform

/-- The baseline anchoring step of updateStatus: when the baseline is not
ready, the snapshot is login-ready, and the identity changed or the merged
exp or gold is finite, freeze the current exp/gold (defaulting non-finite
values to 0) under the current identity key. -/
def anchorBaseline (b : Baseline) (s : Status) (loginReady identityChanged : Bool)
    (identityKey : String) : Baseline :=
  if !b.ready && loginReady && (identityChanged || s.exp.isFinite || s.gold.isFinite) then
    { gold := some s.gold.toFiniteOr0, exp := some s.exp.toFiniteOr0,
      ready := true, key := identityKey }
  else b

/-- updateStatus(partialPatch): merge the patch into the status, then
invalidate a stale baseline, then maybe anchor a fresh one, all within one
synchronous call. -/
def updateStatus (st : DashState) (p : StatusPatch) : DashState :=
  let s := mergeStatus st.status p
  let loginReady := loginReadyOf s
  let identityKey := identityKeyOf s
  let b1 := invalidateBaseline st.baseline identityKey
  let b2 := anchorBaseline b1 s loginReady (identityChangedBy st p) identityKey
  { status := s, baseline := b2 }

/-- The result object of the external getLevelExpProgress function,
consumed as a black box: both fields are arbitrary JavaScript numbers. -/
structure Progress where
  current : JSNum
  needed : JSNum
deriving DecidableEq, Repr

/-- The record returned by buildMetrics. -/
structure Metrics where
  expGain : JSNum
  goldGain : JSNum
  expPerHour : JSNum
  goldPerHour : JSNum
  rateReady : Bool
  rateWindowSec : ℚ
  expCurrent : JSNum
  expNeeded : JSNum
  expProgress : JSNum
  goldRateProgress : JSNum
deriving DecidableEq, Repr

/-- RATE_MIN_WINDOW_SEC = 120. -/
def RATE_MIN_WINDOW_SEC : ℚ := 120

/-- level = Number(state.status.level) || 0 at the top of buildMetrics. -/
def statusLevelOr0 (st : DashState) : JSNum := JSNum.orElse st.status.level (.num 0)

/-- exp = Number(state.status.exp) || 0 at the top of buildMetrics. -/
def statusExpOr0 (st : DashState) : JSNum := JSNum.orElse st.status.exp (.num 0)

/-- gold = Number(state.status.gold) || 0 at the top of buildMetrics. -/
def statusGoldOr0 (st : DashState) : JSNum := JSNum.orElse st.status.gold (.num 0)

/-- baseExp = state.baseline.ready and state.baseline.exp !== null ?
state.baseline.exp : exp. -/
def baseExpOf (st : DashState) : JSNum :=
  match st.baseline.ready, st.baseline.exp with
  | true, some q => .num q
  | _, _ => statusExpOr0 st

/-- baseGold, same pattern as baseExp. -/
def baseGoldOf (st : DashState) : JSNum :=
  match st.baseline.ready, st.baseline.gold with
  | true, some q => .num q
  | _, _ => statusGoldOr0 st

/-- expGain = exp - baseExp. -/
def expGainOf (st : DashState) : JSNum := JSNum.sub (statusExpOr0 st) (baseExpOf st)

/-- goldGain = gold - baseGold. -/
def goldGainOf (st : DashState) : JSNum := JSNum.sub (statusGoldOr0 st) (baseGoldOf st)

/-- buildMetrics(uptimeSec), parameterised by the external level-progress
function (a black box receiving the coerced level and exp). -/
def buildMetrics (st : DashState) (progressFn : JSNum → JSNum → Progress)
    (uptimeSec : ℚ) : Metrics :=
  let expGain := expGainOf st
  let goldGain := goldGainOf st
  let progress := progressFn (statusLevelOr0 st) (statusExpOr0 st)
  let expNeeded := JSNum.orElse progress.needed (.num 1)
  let expCurrent := JSNum.orElse progress.current (.num 0)
  let rateReady := decide (RATE_MIN_WINDOW_SEC ≤ uptimeSec)
  let expPerHour :=
    if rateReady then JSNum.round (JSNum.div expGain (.num (uptimeSec / 3600))) else .num 0
  let goldPerHour :=
    if rateReady then JSNum.round (JSNum.div goldGain (.num (uptimeSec / 3600))) else .num 0
  { expGain := expGain
    goldGain := goldGain
    expPerHour := expPerHour
    goldPerHour := goldPerHour
    rateReady := rateReady
    rateWindowSec := RATE_MIN_WINDOW_SEC
    expCurrent := expCurrent
    expNeeded := expNeeded
    expProgress :=
      JSNum.max (.num 0) (JSNum.min (.num 100)
        (JSNum.round (JSNum.mul (JSNum.div expCurrent expNeeded) (.num 100))))
    goldRateProgress :=
      JSNum.max (.num 0) (JSNum.min (.num 100)
        (JSNum.round (JSNum.mul (JSNum.div (JSNum.abs goldPerHour) (.num 30000)) (.num 100)))) }

/-- One entry of state.logs. -/
structure LogEntry where
  id : ℕ
  ts : String
  level : String
  message : String
deriving DecidableEq, Repr

/-- The log buffer together with its monotone id counter. -/
structure LogState where
  logs : List LogEntry
  nextLogId : ℕ
deriving DecidableEq, Repr

/-- Initial log state: empty buffer, next id 1. -/
def initialLogState : LogState := { logs := [], nextLogId := 1 }

/-- addLog(level, message) parameterised by the MAX_LOGS capacity and the
timestamp string: a no-op at capacity 0, otherwise append the next id and
shift the oldest entry when the capacity is exceeded. -/
def addLog (maxLogs : ℕ) (level message ts : String) (st : LogState) : LogState :=
  if maxLogs = 0 then st
  else
    let item : LogEntry := { id := st.nextLogId, ts := ts, level := level, message := message }
    let grown := st.logs ++ [item]
    let trimmed := if maxLogs < grown.length then grown.tail else grown
    { logs := trimmed, nextLogId := st.nextLogId + 1 }

/-- getLogsSince(sinceId): the full buffer when sinceId is not a finite
positive number, otherwise the entries with id greater than sinceId. -/
def getLogsSince (st : LogState) (sinceId : JSNum) : List LogEntry :=
  match sinceId with
  | .num q => if q ≤ 0 then st.logs else st.logs.filter fun item => q < (item.id : ℚ)
  | _ => st.logs

/-- The mutable strategy record state.strategy; lastDecision holds a
reference (modelled as a heap address) to the latest decision object, or
null. -/
structure Strategy where
  mode : String
  manualSeedId : JSNum
  manualSeedName : String
  source : String
  updatedAt : ℚ
  lastDecision : Option ℕ
deriving DecidableEq, Repr

/-- Initial strategy from the state literal. -/
def initialStrategy : Strategy :=
  { mode := "normalFert", manualSeedId := .num 0, manualSeedName := "",
    source := "auto", updatedAt := 0, lastDecision := none }

/-- A strategy patch; clearManual records the truthiness of the
clearManual field, manualSeedId the numeric coercion of the field when
provided, manualSeedName the field when provided as a string. -/
structure StrategyPatch where
  mode : Option String := none
  clearManual : Bool := false
  manualSeedId : Option JSNum := none
  manualSeedName : Option String := none
deriving DecidableEq, Repr

/-- updateStrategyConfig(patch) on the strategy record, with the current
epoch-ms time passed explicitly: mode is applied only for the two valid
enum values, clearManual resets the manual override, then a provided
manualSeedId is coerced and applied, switching the source to manual when
positive. -/
def updateStrategyConfig (st : Strategy) (p : StrategyPatch) (now : ℚ) : Strategy :=
  let st1 :=
    match p.mode with
    | some m => if m = "normalFert" ∨ m = "noFert" then { st with mode := m } else st
    | none => st
  let st2 :=
    if p.clearManual then
      { st1 with manualSeedId := .num 0, manualSeedName := "", source := "auto" }
    else st1
  let st3 :=
    match p.manualSeedId with
    | some v =>
        let sid := JSNum.orElse v (.num 0)
        if JSNum.lt (.num 0) sid then
          { st2 with
            manualSeedId := sid
            source := "manual"
            manualSeedName := strOrElse (p.manualSeedName.getD "") (strOrElse st2.manualSeedName "") }
        else { st2 with manualSeedId := sid }
    | none => st2
  { st3 with updatedAt := now }

/-- The snapshot object built and returned by getStrategyConfig. -/
structure StrategySnapshot where
  mode : String
  manualSeedId : JSNum
  manualSeedName : String
  source : String
  updatedAt : ℚ
  lastDecision : Option ℕ
deriving DecidableEq, Repr

/-- getStrategyConfig(): a freshly built object whose scalar fields are
coerced copies and whose lastDecision field is the internal reference
itself (state.strategy.lastDecision || null). -/
def getStrategyConfig (st : Strategy) : StrategySnapshot :=
  { mode := st.mode
    manualSeedId := JSNum.orElse st.manualSeedId (.num 0)
    manualSeedName := strOrElse st.manualSeedName ""
    source := strOrElse st.source "auto"
    updatedAt := st.updatedAt
    lastDecision := st.lastDecision }

/-- A decision object on the heap; the opaque telemetry payload is
represented by a single numeric field. -/
structure DecisionObj where
  atMs : ℚ
  seedId : ℚ
deriving DecidableEq, Repr

/-- The object heap holding decision objects, addressed by ℕ. -/
def Heap : Type := ℕ → DecisionObj

/-- Mutation of the decision object stored at a reference. -/
def writeHeap (h : Heap) (r : ℕ) (d : DecisionObj) : Heap :=
  fun r2 => if r2 = r then d else h r2

/-- The decision the internal strategy state currently sees through its
lastDecision reference. -/
def readLastDecision (h : Heap) (st : Strategy) : Option DecisionObj :=
  st.lastDecision.map h

/-- recordStrategyDecision(decision): allocate a fresh decision object
carrying the current time and the payload, and point lastDecision at it. -/
def recordStrategyDecision (h : Heap) (fresh : ℕ) (st : Strategy) (seedId : ℚ)
    (now : ℚ) : Heap × ℕ × Strategy :=
  (writeHeap h fresh { atMs := now, seedId := seedId }, fresh + 1,
    { st with lastDecision := some fresh })

/-- The strategy states reachable from the initial configuration by any
sequence of updateStrategyConfig and recordStrategyDecision calls
(recordStrategyDecision only redirects the lastDecision reference). -/
inductive StrategyReachable : Strategy → Prop where
  | init : StrategyReachable initialStrategy
  | update (st : Strategy) (p : StrategyPatch) (now : ℚ) :
      StrategyReachable st → StrategyReachable (updateStrategyConfig st p now)
  | record (st : Strategy) (r : ℕ) :
      StrategyReachable st → StrategyReachable { st with lastDecision := some r }

/-- The shared scheduler configuration object CONFIG, holding the two
intervals in milliseconds. -/
structure SharedConfig where
  farmCheckInterval : JSNum
  friendCheckInterval : JSNum
deriving DecidableEq, Repr

/-- The settings record exposed over the API, in whole seconds. -/
structure RuntimeSettings where
  farmIntervalSec : JSNum
  friendIntervalSec : JSNum
deriving DecidableEq, Repr

/-- Math.max(1, Math.round(Number(raw || 1000) / 1000)): the read-side
conversion of one stored interval to whole seconds. -/
def intervalSecOf (raw : JSNum) : JSNum :=
  JSNum.max (.num 1) (JSNum.round (JSNum.div (JSNum.orElse raw (.num 1000)) (.num 1000)))

/-- getRuntimeSettings(): read both intervals from CONFIG. -/
def getRuntimeSettings (c : SharedConfig) : RuntimeSettings :=
  { farmIntervalSec := intervalSecOf c.farmCheckInterval
    friendIntervalSec := intervalSecOf c.friendCheckInterval }

/-- A runtime-settings patch; each field, when provided, is the numeric
coercion of the supplied value. -/
structure SettingsPatch where
  farmIntervalSec : Option JSNum := none
  friendIntervalSec : Option JSNum := none
deriving DecidableEq, Repr

/-- Validation of one provided interval: a value that is not a finite
number greater than zero raises the named error, a valid one is floored
and clamped to at least 1. -/
def validateInterval (v : Option JSNum) (dflt : JSNum) (errName : String) :
    Except String JSNum :=
  match v with
  | none => .ok dflt
  | some x =>
      if !x.isFinite || JSNum.le x (.num 0) then .error errName
      else .ok (JSNum.max (.num 1) (JSNum.floor x))

/-- updateRuntimeSettings(patch): validate farmIntervalSec first, then
friendIntervalSec; on success return the next settings and the CONFIG
object rewritten with both intervals converted to milliseconds.  The
JavaScript function throws before any CONFIG write, so a validation error
leaves the shared configuration unchanged, which the Except value models. -/
def updateRuntimeSettings (c : SharedConfig) (p : SettingsPatch) :
    Except String (RuntimeSettings × SharedConfig) := do
  let current := getRuntimeSettings c
  let farm ← validateInterval p.farmIntervalSec current.farmIntervalSec "invalid_farm_interval"
  let friend ← validateInterval p.friendIntervalSec current.friendIntervalSec "invalid_friend_interval"
  let next : RuntimeSettings := { farmIntervalSec := farm, friendIntervalSec := friend }
  pure (next,
    { farmCheckInterval := JSNum.mul farm (.num 1000)
      friendCheckInterval := JSNum.mul friend (.num 1000) })

/-! Concrete scenario data used by the claims. -/

/-- First update of the baseline-anchoring scenario. -/
def patchA : StatusPatch := { name := some "A", exp := some (.num 100), gold := some (.num 50) }

/-- Second update of the baseline-anchoring scenario. -/
def patchB : StatusPatch := { exp := some (.num 150), gold := some (.num 80) }

/-- State after the first scenario update. -/
def stateAfterA : DashState := updateStatus initialDashState patchA

/-- State after both scenario updates. -/
def stateAfterAB : DashState := updateStatus stateAfterA patchB

/-- The identity-rotation update. -/
def patchNameB : StatusPatch := { name := some "B", exp := some (.num 10), gold := some (.num 5) }

/-- State after the identity-rotation update. -/
def stateAfterRotation : DashState := updateStatus stateAfterAB patchNameB

/-- An update that only sets the level, carrying no exp or gold at all. -/
def levelOnlyPatch : StatusPatch := { level := some (.num 1) }

/-- The predicate the specification's wording uses for the anchoring
trigger: the update itself carried a finite exp or gold value.  Written
from the spec sentence, to be compared with the condition the code
evaluates on the merged snapshot. -/
def carriedFiniteExpOrGold (p : StatusPatch) : Bool :=
  (match p.exp with | some v => v.isFinite | none => false) ||
  (match p.gold with | some v => v.isFinite | none => false)

/-- A level-progress function returning a fractional needed value. -/
def halfNeededProgress : JSNum → JSNum → Progress :=
  fun _ _ => { current := .num 0, needed := .num (1/2) }

/-- A level-progress function returning zeros. -/
def zeroProgress : JSNum → JSNum → Progress :=
  fun _ _ => { current := .num 0, needed := .num 0 }

/-- Well-formedness of the log buffer: entry ids strictly increase along
the buffer and are all below the next id to be assigned. -/
def LogWF (st : LogState) : Prop :=
  st.logs.Pairwise (fun a b => a.id < b.id) ∧ ∀ e ∈ st.logs, e.id < st.nextLogId

/-- Five appends at capacity 3 starting from the empty buffer. -/
def fiveAppends : LogState :=
  addLog 3 "INFO" "m5" "t5"
    (addLog 3 "INFO" "m4" "t4"
      (addLog 3 "INFO" "m3" "t3"
        (addLog 3 "INFO" "m2" "t2"
          (addLog 3 "INFO" "m1" "t1" initialLogState))))

/-- Whether a strategy patch applies a positive manual seed id. -/
def patchSeedPositive (p : StrategyPatch) : Bool :=
  match p.manualSeedId with
  | some v => JSNum.lt (.num 0) (JSNum.orElse v (.num 0))
  | none => false

/-- A patch pinning manual seed 7. -/
def seedPatch7 : StrategyPatch := { manualSeedId := some (.num 7), manualSeedName := some "X" }

/-- A patch whose manualSeedId coerces to 0, without clearManual. -/
def zeroSeedPatch : StrategyPatch := { manualSeedId := some (.num 0) }

/-- A patch that only clears the manual override. -/
def clearOnlyPatch : StrategyPatch := { clearManual := true }

/-- A patch combining clearManual with a negative manualSeedId. -/
def clearWithNegative : StrategyPatch :=
  { clearManual := true, manualSeedId := some (.num (-3)) }

/-- A settings patch carrying only friendIntervalSec 2.7. -/
def settingsPatch27 : SettingsPatch := { friendIntervalSec := some (.num (27/10)) }

/-- A settings patch with both intervals invalid. -/
def bothInvalidPatch : SettingsPatch :=
  { farmIntervalSec := some (.num (-1)), friendIntervalSec := some (.num (-1)) }

/-- A concrete shared configuration. -/
def config0 : SharedConfig := { farmCheckInterval := .num 1000, friendCheckInterval := .num 10000 }

/-- An initial heap of decision objects. -/
def heap0 : Heap := fun _ => { atMs := 0, seedId := 0 }

/-- The result of recording one decision from the initial strategy. -/
def recorded : Heap × ℕ × Strategy := recordStrategyDecision heap0 0 initialStrategy 7 5

/-- The heap after the recording. -/
def heap1 : Heap := recorded.1

/-- The strategy after the recording. -/
def strat1 : Strategy := recorded.2.2

/-- The snapshot a caller obtains after the recording. -/
def snap1 : StrategySnapshot := getStrategyConfig strat1

/-- The heap after the caller mutates the decision object reached through
the snapshot's lastDecision reference. -/
def heap2 : Heap := writeHeap heap1 (snap1.lastDecision.getD 0) { atMs := 5, seedId := 99 }

/-! Helper lemmas about the embedded operations. -/

theorem stateAfterA_eq :
    stateAfterA =
      { status := { platform := "qq", name := "A", level := .num 0, gold := .num 50,
                    exp := .num 100 },
        baseline := { gold := some 50, exp := some 100, ready := true, key := "qq:A" } } := by
  simp [stateAfterA, updateStatus, mergeStatus, initialDashState, initialStatus, initialBaseline,
    patchA, loginReadyOf, identityKeyOf, invalidateBaseline, anchorBaseline, identityChangedBy,
    JSNum.orElse, JSNum.lt, JSNum.truthy, JSNum.isFinite, JSNum.toFiniteOr0]

theorem stateAfterAB_eq :
    stateAfterAB =
      { status := { platform := "qq", name := "A", level := .num 0, gold := .num 80,
                    exp := .num 150 },
        baseline := { gold := some 50, exp := some 100, ready := true, key := "qq:A" } } := by
  rw [stateAfterAB, stateAfterA_eq]
  simp [updateStatus, mergeStatus, patchB, loginReadyOf, identityKeyOf, invalidateBaseline,
    anchorBaseline, identityChangedBy, JSNum.orElse, JSNum.lt, JSNum.truthy, JSNum.isFinite,
    JSNum.toFiniteOr0]

theorem stateAfterRotation_eq :
    stateAfterRotation =
      { status := { platform := "qq", name := "B", level := .num 0, gold := .num 5,
                    exp := .num 10 },
        baseline := { gold := some 5, exp := some 10, ready := true, key := "qq:B" } } := by
  rw [stateAfterRotation, stateAfterAB_eq]
  simp [updateStatus, mergeStatus, patchNameB, loginReadyOf, identityKeyOf, invalidateBaseline,
    anchorBaseline, identityChangedBy, JSNum.orElse, JSNum.lt, JSNum.truthy, JSNum.isFinite,
    JSNum.toFiniteOr0]

theorem buildMetrics_expGain (st : DashState) (fn : JSNum → JSNum → Progress) (u : ℚ) :
    (buildMetrics st fn u).expGain = expGainOf st := rfl

theorem buildMetrics_goldGain (st : DashState) (fn : JSNum → JSNum → Progress) (u : ℚ) :
    (buildMetrics st fn u).goldGain = goldGainOf st := rfl

theorem buildMetrics_expNeeded (st : DashState) (fn : JSNum → JSNum → Progress) (u : ℚ) :
    (buildMetrics st fn u).expNeeded =
      JSNum.orElse (fn (statusLevelOr0 st) (statusExpOr0 st)).needed (.num 1) := rfl

theorem buildMetrics_expProgress (st : DashState) (fn : JSNum → JSNum → Progress) (u : ℚ) :
    (buildMetrics st fn u).expProgress =
      JSNum.max (.num 0) (JSNum.min (.num 100)
        (JSNum.round (JSNum.mul
          (JSNum.div (buildMetrics st fn u).expCurrent (buildMetrics st fn u).expNeeded)
          (.num 100)))) := rfl

theorem orElse_one_ne_zero (x : JSNum) :
    JSNum.orElse x (.num 1) ≠ .num 0 ∧ JSNum.orElse x (.num 1) ≠ .nan := by
  rcases x with _ | _ | _ | q <;> simp [JSNum.orElse, JSNum.truthy]
  by_cases hq : q = 0 <;> simp [hq]

theorem updateStatus_baseline_of_not_ready (st : DashState) (p : StatusPatch)
    (hb : st.baseline.ready = false) :
    (updateStatus st p).baseline =
      (if (loginReadyOf (mergeStatus st.status p) &&
            (identityChangedBy st p ||
              (mergeStatus st.status p).exp.isFinite ||
              (mergeStatus st.status p).gold.isFinite)) = true
       then { gold := some (mergeStatus st.status p).gold.toFiniteOr0,
              exp := some (mergeStatus st.status p).exp.toFiniteOr0,
              ready := true,
              key := identityKeyOf (mergeStatus st.status p) }
       else st.baseline) := by
  have hinv : invalidateBaseline st.baseline (identityKeyOf (mergeStatus st.status p))
      = st.baseline := by
    simp [invalidateBaseline, hb]
  simp only [updateStatus, hinv, anchorBaseline, hb]
  simp [Bool.and_assoc]

theorem updateStrategyConfig_manualSeedId (st : Strategy) (p : StrategyPatch) (now : ℚ) :
    (updateStrategyConfig st p now).manualSeedId =
      (match p.manualSeedId with
        | some v => JSNum.orElse v (.num 0)
        | none => if p.clearManual then .num 0 else st.manualSeedId) := by
  unfold updateStrategyConfig
  rcases p.mode with _ | m <;> rcases hpm : p.manualSeedId with _ | v <;>
    by_cases hc : p.clearManual <;>
    simp [hpm, hc] <;>
    try split <;> try simp
  all_goals (by_cases hmm : (m = "normalFert" ∨ m = "noFert") <;> simp [hmm] <;>
    try split <;> simp)

theorem updateStrategyConfig_source (st : Strategy) (p : StrategyPatch) (now : ℚ) :
    (updateStrategyConfig st p now).source =
      (if patchSeedPositive p then "manual"
       else if p.clearManual then "auto" else st.source) := by
  unfold updateStrategyConfig patchSeedPositive
  rcases p.mode with _ | m <;> rcases hpm : p.manualSeedId with _ | v <;>
    by_cases hc : p.clearManual <;>
    simp [hpm, hc] <;>
    try split <;> try simp
  all_goals (by_cases hmm : (m = "normalFert" ∨ m = "noFert") <;> simp [hmm] <;>
    try split <;> simp)

theorem updateStrategyConfig_manualSeedName (st : Strategy) (p : StrategyPatch) (now : ℚ) :
    (updateStrategyConfig st p now).manualSeedName =
      (if patchSeedPositive p then
        strOrElse (p.manualSeedName.getD "")
          (strOrElse (if p.clearManual then "" else st.manualSeedName) "")
       else if p.clearManual then "" else st.manualSeedName) := by
  unfold updateStrategyConfig patchSeedPositive
  rcases p.mode with _ | m <;> rcases hpm : p.manualSeedId with _ | v <;>
    by_cases hc : p.clearManual <;>
    simp [hpm, hc] <;>
    try split <;> try simp
  all_goals (by_cases hmm : (m = "normalFert" ∨ m = "noFert") <;> simp [hmm] <;>
    try split <;> simp)

theorem JSNum.max_num_posInf (a : ℚ) :
    JSNum.max (.num a) .posInf = .posInf := by
  simp [JSNum.max, JSNum.lt]

theorem intervalSecOf_num_ne (q : ℚ) (hq : q ≠ 0) :
    intervalSecOf (.num q) =
      (if (1:ℚ) < ((⌊q / 1000 + 1/2⌋ : ℤ) : ℚ) then .num ((⌊q / 1000 + 1/2⌋ : ℤ) : ℚ)
       else .num 1) := by
  have h1000 : ¬ ((1000 : ℚ) = 0) := by norm_num
  rw [intervalSecOf]
  rw [show JSNum.orElse (.num q) (.num 1000) = .num q by simp [JSNum.orElse, JSNum.truthy, hq]]
  rw [show JSNum.div (.num q) (.num 1000) = .num (q / 1000) by simp [JSNum.div, h1000]]
  rw [show JSNum.round (.num (q / 1000)) = .num ((⌊q / 1000 + 1/2⌋ : ℤ) : ℚ) from rfl]
  rw [JSNum.max]
  rw [if_neg (by simp)]
  rw [show JSNum.lt (.num 1) (.num ((⌊q / 1000 + 1/2⌋ : ℤ) : ℚ))
        = decide ((1:ℚ) < ((⌊q / 1000 + 1/2⌋ : ℤ) : ℚ)) from rfl]
  by_cases h : (1:ℚ) < ((⌊q / 1000 + 1/2⌋ : ℤ) : ℚ) <;> simp [h]

theorem intervalSecOf_falsy (raw : JSNum) (h : raw.truthy = false) :
    intervalSecOf raw = .num 1 := by
  have horelse : JSNum.orElse raw (.num 1000) = .num 1000 := by simp [JSNum.orElse, h]
  rw [intervalSecOf, horelse]
  rw [show JSNum.div (.num 1000) (.num 1000) = .num 1 by norm_num [JSNum.div]]
  rw [show JSNum.round (.num 1) = .num 1 by norm_num [JSNum.round]]
  rw [JSNum.max, if_neg (by simp)]
  rw [show JSNum.lt (.num 1) (.num 1) = decide ((1:ℚ) < 1) from rfl]
  norm_num

theorem intervalSecOf_posInf : intervalSecOf .posInf = .posInf := by
  rw [intervalSecOf]
  rw [show JSNum.orElse .posInf (.num 1000) = .posInf from rfl]
  rw [show JSNum.div .posInf (.num 1000) = .posInf by norm_num [JSNum.div]]
  rw [show JSNum.round .posInf = .posInf from rfl]
  exact JSNum.max_num_posInf 1

theorem intervalSecOf_negInf : intervalSecOf .negInf = .num 1 := by
  rw [intervalSecOf]
  rw [show JSNum.orElse .negInf (.num 1000) = .negInf from rfl]
  rw [show JSNum.div .negInf (.num 1000) = .negInf by norm_num [JSNum.div]]
  rw [show JSNum.round .negInf = .negInf from rfl]
  simp [JSNum.max, JSNum.lt]

theorem intervalSecOf_cases (raw : JSNum) :
    (∃ k : ℤ, 1 ≤ k ∧ intervalSecOf raw = .num (k : ℚ)) ∨ intervalSecOf raw = .posInf := by
  rcases raw with _ | _ | _ | q
  · exact .inl ⟨1, le_refl 1, by rw [intervalSecOf_falsy .nan rfl]; norm_num⟩
  · exact .inr intervalSecOf_posInf
  · exact .inl ⟨1, le_refl 1, by rw [intervalSecOf_negInf]; norm_num⟩
  · by_cases hq : q = 0
    · exact .inl ⟨1, le_refl 1, by
        rw [intervalSecOf_falsy _ (by simp [JSNum.truthy, hq])]; norm_num⟩
    · left
      rw [intervalSecOf_num_ne q hq]
      by_cases h : (1:ℚ) < ((⌊q / 1000 + 1/2⌋ : ℤ) : ℚ)
      · exact ⟨⌊q / 1000 + 1/2⌋, by exact_mod_cast le_of_lt h, by rw [if_pos h]⟩
      · exact ⟨1, le_refl 1, by rw [if_neg h]; norm_num⟩

theorem intervalSecOf_roundtrip (raw : JSNum) :
    intervalSecOf (JSNum.mul (intervalSecOf raw) (.num 1000)) = intervalSecOf raw := by
  rcases intervalSecOf_cases raw with ⟨k, hk, heq⟩ | hinf
  · rw [heq]
    have hkq : (0 : ℚ) < (k : ℚ) := by exact_mod_cast lt_of_lt_of_le Int.zero_lt_one hk
    have hmul : JSNum.mul (.num (k : ℚ)) (.num 1000) = .num ((k : ℚ) * 1000) := rfl
    have hne : (k : ℚ) * 1000 ≠ 0 := by positivity
    rw [hmul, intervalSecOf_num_ne _ hne]
    have hdiv : (k : ℚ) * 1000 / 1000 = (k : ℚ) := by field_simp
    rw [hdiv]
    have hfloor : (⌊(k : ℚ) + 1/2⌋ : ℤ) = k := by
      rw [Int.floor_eq_iff]
      constructor
      · linarith
      · norm_num
    rw [hfloor]
    rcases eq_or_lt_of_le hk with h1 | h1
    · rw [if_neg (by rw [← h1]; norm_num)]
      rw [← h1]
      norm_num
    · rw [if_pos (by exact_mod_cast h1)]
  · rw [hinf]
    rw [show JSNum.mul .posInf (.num 1000) = .posInf by norm_num [JSNum.mul]]
    exact intervalSecOf_posInf

theorem addLog_WF (k : ℕ) (l m ts : String) (st : LogState) (h : LogWF st) :
    LogWF (addLog k l m ts st) := by
  rcases h with ⟨hpair, hbound⟩
  by_cases hk : k = 0
  · simpa [addLog, hk, LogWF] using ⟨hpair, hbound⟩
  · simp only [addLog, if_neg hk, LogWF]
    have hgrown : List.Pairwise (fun a b : LogEntry => a.id < b.id)
        (st.logs ++
          [({ id := st.nextLogId, ts := ts, level := l, message := m } : LogEntry)]) := by
      rw [List.pairwise_append]
      refine ⟨hpair, List.pairwise_singleton _ _, ?_⟩
      intro a ha b hb
      rw [List.mem_singleton] at hb
      subst hb
      exact hbound a ha
    constructor
    · split
      · exact List.Pairwise.sublist (List.tail_sublist _) hgrown
      · exact hgrown
    · intro e he
      have hmem : e ∈ st.logs ++
          [({ id := st.nextLogId, ts := ts, level := l, message := m } : LogEntry)] := by
        split at he
        · exact (List.tail_sublist _).subset he
        · exact he
      rcases List.mem_append.mp hmem with h1 | h1
      · exact Nat.lt_succ_of_lt (hbound e h1)
      · rw [List.mem_singleton] at h1
        subst h1
        exact Nat.lt_succ_self _

theorem addLog_positive (k : ℕ) (l m ts : String) (st : LogState) (hk : k ≠ 0) :
    (addLog k l m ts st).nextLogId = st.nextLogId + 1 ∧
    (addLog k l m ts st).logs.getLast? =
      some { id := st.nextLogId, ts := ts, level := l, message := m } := by
  refine ⟨by simp [addLog, hk], ?_⟩
  simp only [addLog, if_neg hk]
  split
  · rename_i hlen
    rcases hst : st.logs with _ | ⟨a, rest⟩
    · rw [hst] at hlen
      simp at hlen
      omega
    · simp [List.getLast?_concat]
  · simp [List.getLast?_concat]

theorem getLogsSince_mem (st : LogState) (q : ℚ) (e : LogEntry) (hq : 0 < q) :
    e ∈ getLogsSince st (.num q) ↔ e ∈ st.logs ∧ q < (e.id : ℚ) := by
  simp [getLogsSince, not_le.mpr hq, List.mem_filter]

/-! The claims. -/

/-- C1 (counterexample): on the fresh state, an update carrying only a
level and no exp or gold field, with unchanged identity, still anchors a
baseline, because the code tests finiteness of the merged snapshot's exp
and gold rather than of values carried by the update itself. -/
theorem claim_C1_counterexample :
    initialDashState.baseline.ready = false ∧
    loginReadyOf (mergeStatus initialDashState.status levelOnlyPatch) = true ∧
    identityChangedBy initialDashState levelOnlyPatch = false ∧
    carriedFiniteExpOrGold levelOnlyPatch = false ∧
    (updateStatus initialDashState levelOnlyPatch).baseline.ready = true := by
  refine ⟨rfl, ?_, ?_, rfl, ?_⟩
  · norm_num [loginReadyOf, mergeStatus, levelOnlyPatch, initialDashState, initialStatus,
      JSNum.orElse, JSNum.truthy, JSNum.lt]
  · norm_num [identityChangedBy, mergeStatus, levelOnlyPatch, initialDashState, initialStatus]
  · norm_num [updateStatus, mergeStatus, levelOnlyPatch, initialDashState, initialStatus,
      initialBaseline, loginReadyOf, identityKeyOf, invalidateBaseline, anchorBaseline,
      identityChangedBy, JSNum.orElse, JSNum.truthy, JSNum.lt, JSNum.isFinite]

/-- C1 (amended): on an updateStatus call where the baseline is not ready
and the merged snapshot is login-ready, a new baseline is anchored exactly
when the identity just changed OR the merged snapshot's exp or gold is a
finite number; the anchored gold/exp are taken from the current
already-merged snapshot, defaulting to 0 if non-finite, under the current
identity key. -/
theorem claim_C1_anchor_condition (st : DashState) (p : StatusPatch)
    (hb : st.baseline.ready = false)
    (hl : loginReadyOf (mergeStatus st.status p) = true) :
    ((updateStatus st p).baseline.ready = true ↔
      (identityChangedBy st p ||
        (mergeStatus st.status p).exp.isFinite ||
        (mergeStatus st.status p).gold.isFinite) = true) ∧
    ((updateStatus st p).baseline.ready = true →
      (updateStatus st p).baseline =
        { gold := some (mergeStatus st.status p).gold.toFiniteOr0,
          exp := some (mergeStatus st.status p).exp.toFiniteOr0,
          ready := true,
          key := identityKeyOf (mergeStatus st.status p) }) := by
  rw [updateStatus_baseline_of_not_ready st p hb, hl]
  by_cases hc : (identityChangedBy st p ||
      (mergeStatus st.status p).exp.isFinite ||
      (mergeStatus st.status p).gold.isFinite) = true
  · simp [hc]
  · have hc2 : (identityChangedBy st p ||
        (mergeStatus st.status p).exp.isFinite ||
        (mergeStatus st.status p).gold.isFinite) = false := by
      rcases Bool.eq_false_or_eq_true (identityChangedBy st p ||
        (mergeStatus st.status p).exp.isFinite ||
        (mergeStatus st.status p).gold.isFinite) with h | h
      · exact absurd h hc
      · exact h
    simp [hc2, hb]

/-- C1 witness: the amended condition instantiated at the fresh state and
the first scenario update. -/
theorem claim_C1_anchor_condition_witness :
    ((updateStatus initialDashState patchA).baseline.ready = true ↔
      (identityChangedBy initialDashState patchA ||
        (mergeStatus initialDashState.status patchA).exp.isFinite ||
        (mergeStatus initialDashState.status patchA).gold.isFinite) = true) ∧
    ((updateStatus initialDashState patchA).baseline.ready = true →
      (updateStatus initialDashState patchA).baseline =
        { gold := some (mergeStatus initialDashState.status patchA).gold.toFiniteOr0,
          exp := some (mergeStatus initialDashState.status patchA).exp.toFiniteOr0,
          ready := true,
          key := identityKeyOf (mergeStatus initialDashState.status patchA) }) :=
  claim_C1_anchor_condition initialDashState patchA rfl (by decide)

/-- C2: from the fresh initial state, updating with name A, exp 100 and
gold 50 anchors the baseline at exp 100 / gold 50 under key qq:A, the
second update with exp 150 / gold 80 leaves the baseline unchanged, and
buildMetrics afterwards reports expGain 50 and goldGain 30 for every
progress function and uptime. -/
theorem claim_C2_baseline_anchoring :
    stateAfterA.baseline = { gold := some 50, exp := some 100, ready := true, key := "qq:A" } ∧
    stateAfterAB.baseline = stateAfterA.baseline ∧
    ∀ (fn : JSNum → JSNum → Progress) (u : ℚ),
      (buildMetrics stateAfterAB fn u).expGain = .num 50 ∧
      (buildMetrics stateAfterAB fn u).goldGain = .num 30 := by
  refine ⟨by rw [stateAfterA_eq], by rw [stateAfterA_eq, stateAfterAB_eq],
    fun fn u => ⟨?_, ?_⟩⟩
  · rw [buildMetrics_expGain, stateAfterAB_eq]
    simp [expGainOf, statusExpOr0, baseExpOf, JSNum.orElse, JSNum.truthy, JSNum.sub]
    norm_num
  · rw [buildMetrics_goldGain, stateAfterAB_eq]
    simp [goldGainOf, statusGoldOr0, baseGoldOf, JSNum.orElse, JSNum.truthy, JSNum.sub]
    norm_num

/-- C3: after the two scenario updates, a single update with name B, exp
10 and gold 5 finds that the new identity key qq:B differs from the stored
key qq:A, the invalidation step clears the old baseline, and a fresh
baseline is anchored at exp 10 / gold 5 under key qq:B within the same
call, so buildMetrics immediately afterwards reports expGain 0. -/
theorem claim_C3_identity_rotation :
    stateAfterAB.baseline.key = "qq:A" ∧
    identityKeyOf (mergeStatus stateAfterAB.status patchNameB) = "qq:B" ∧
    invalidateBaseline stateAfterAB.baseline "qq:B" =
      { gold := none, exp := none, ready := false, key := "" } ∧
    stateAfterRotation.baseline =
      { gold := some 5, exp := some 10, ready := true, key := "qq:B" } ∧
    ∀ (fn : JSNum → JSNum → Progress) (u : ℚ),
      (buildMetrics stateAfterRotation fn u).expGain = .num 0 := by
  refine ⟨by rw [stateAfterAB_eq], ?_, ?_, by rw [stateAfterRotation_eq], fun fn u => ?_⟩
  · rw [stateAfterAB_eq]
    simp [mergeStatus, patchNameB, identityKeyOf, loginReadyOf, JSNum.orElse, JSNum.lt,
      JSNum.truthy]
  · rw [stateAfterAB_eq]
    simp [invalidateBaseline]
  · rw [buildMetrics_expGain, stateAfterRotation_eq]
    simp [expGainOf, statusExpOr0, baseExpOf, JSNum.orElse, JSNum.truthy, JSNum.sub]

/-- C4: with capacity 3, five appends leave exactly the three most recent
entries with ids 3, 4, 5 in ascending order, and getLogsSince 3 returns
exactly the entries with id greater than 3; at capacity 0 every append is
a no-op; an effective append assigns id nextLogId (strictly increasing,
never reused, starting at 1) and preserves the strictly-increasing,
bounded id invariant. -/
theorem claim_C4_log_eviction :
    (fiveAppends.logs.map LogEntry.id = [3, 4, 5] ∧ fiveAppends.logs.length = 3) ∧
    ((getLogsSince fiveAppends (.num 3)).map LogEntry.id = [4, 5]) ∧
    (∀ (st : LogState) (q : ℚ) (e : LogEntry), 0 < q →
      (e ∈ getLogsSince st (.num q) ↔ e ∈ st.logs ∧ q < (e.id : ℚ))) ∧
    (∀ (l m ts : String) (st : LogState), addLog 0 l m ts st = st) ∧
    (∀ (k : ℕ) (l m ts : String) (st : LogState), k ≠ 0 →
      (addLog k l m ts st).nextLogId = st.nextLogId + 1 ∧
      (addLog k l m ts st).logs.getLast? =
        some { id := st.nextLogId, ts := ts, level := l, message := m }) ∧
    (∀ (k : ℕ) (l m ts : String) (st : LogState), LogWF st → LogWF (addLog k l m ts st)) ∧
    (LogWF initialLogState ∧ initialLogState.nextLogId = 1) :=
  ⟨⟨rfl, rfl⟩, rfl, getLogsSince_mem, fun l m ts st => rfl, addLog_positive, addLog_WF,
    ⟨⟨List.Pairwise.nil, fun e he => absurd he (List.not_mem_nil e)⟩, rfl⟩⟩

/-- C4 witness: the quantified parts instantiated at the five-append
buffer and a sixth append. -/
theorem claim_C4_log_eviction_witness :
    ((⟨4, "t4", "INFO", "m4"⟩ : LogEntry) ∈ getLogsSince fiveAppends (.num 3) ↔
      (⟨4, "t4", "INFO", "m4"⟩ : LogEntry) ∈ fiveAppends.logs ∧ (3:ℚ) < ((4:ℕ) : ℚ)) ∧
    (addLog 3 "INFO" "m6" "t6" fiveAppends).nextLogId = fiveAppends.nextLogId + 1 ∧
    LogWF (addLog 3 "INFO" "m6" "t6" fiveAppends) :=
  ⟨claim_C4_log_eviction.2.2.1 fiveAppends 3 ⟨4, "t4", "INFO", "m4"⟩ (by decide),
   (claim_C4_log_eviction.2.2.2.2.1 3 "INFO" "m6" "t6" fiveAppends (by decide)).1,
   claim_C4_log_eviction.2.2.2.2.2.1 3 "INFO" "m6" "t6" fiveAppends
     (by
        refine ⟨?_, ?_⟩
        · decide
        · decide)⟩

/-- C5 (counterexample): a patch combining clearManual with a negative
manualSeedId (which is not positive) does not leave manualSeedId at 0: the
clear is overwritten by the coerced negative number -3. -/
theorem claim_C5_counterexample :
    clearWithNegative.clearManual = true ∧
    JSNum.lt (.num 0) (JSNum.orElse (.num (-3)) (.num 0)) = false ∧
    (updateStrategyConfig initialStrategy clearWithNegative 0).manualSeedId = .num (-3) := by
  refine ⟨rfl, ?_, ?_⟩
  · norm_num [JSNum.lt, JSNum.orElse, JSNum.truthy]
  · rw [updateStrategyConfig_manualSeedId]
    norm_num [clearWithNegative, JSNum.orElse, JSNum.truthy]

/-- C5 (amended): in every strategy state reachable from the initial
configuration by updateStrategyConfig and recordStrategyDecision calls,
manualSeedId greater than 0 implies source is manual; and a patch with
clearManual truthy whose manualSeedId is absent or coerces to 0 leaves
manualSeedId 0, manualSeedName empty and source auto (a clearManual patch
whose manualSeedId coerces to a negative number instead overwrites the
cleared id with that number). -/
theorem claim_C5_manual_invariant :
    (∀ st : Strategy, StrategyReachable st →
      JSNum.lt (.num 0) st.manualSeedId = true → st.source = "manual") ∧
    (∀ (st : Strategy) (p : StrategyPatch) (now : ℚ),
      p.clearManual = true →
      (∀ v, p.manualSeedId = some v → JSNum.orElse v (.num 0) = .num 0) →
      (updateStrategyConfig st p now).manualSeedId = .num 0 ∧
      (updateStrategyConfig st p now).manualSeedName = "" ∧
      (updateStrategyConfig st p now).source = "auto") := by
  constructor
  · intro st h
    induction h with
    | init =>
        intro h1
        simp [initialStrategy, JSNum.lt] at h1
    | update st p now _ ih =>
        intro h1
        rw [updateStrategyConfig_manualSeedId] at h1
        rw [updateStrategyConfig_source]
        rcases hpm : p.manualSeedId with _ | v
        · rw [hpm] at h1
          by_cases hc : p.clearManual
          · rw [if_pos hc] at h1
            simp [JSNum.lt] at h1
          · rw [if_neg hc] at h1
            have := ih h1
            simp [patchSeedPositive, hpm, hc, this]
        · rw [hpm] at h1
          simp [patchSeedPositive, hpm, h1]
    | record st r _ ih =>
        intro h1
        exact ih h1
  · intro st p now hc hv
    rw [updateStrategyConfig_manualSeedId, updateStrategyConfig_manualSeedName,
      updateStrategyConfig_source]
    have hp : patchSeedPositive p = false := by
      unfold patchSeedPositive
      rcases hpm : p.manualSeedId with _ | v
      · rfl
      · simp [hv v hpm, JSNum.lt]
    rcases hpm : p.manualSeedId with _ | v
    · simp [hp, hc]
    · simp [hp, hc, hv v hpm]

/-- C5 witness: the invariant instantiated at the reachable state pinned
to seed 7, and the clear behaviour at a pure clearManual patch. -/
theorem claim_C5_manual_invariant_witness :
    (updateStrategyConfig initialStrategy seedPatch7 0).source = "manual" ∧
    ((updateStrategyConfig initialStrategy clearOnlyPatch 1).manualSeedId = .num 0 ∧
     (updateStrategyConfig initialStrategy clearOnlyPatch 1).manualSeedName = "" ∧
     (updateStrategyConfig initialStrategy clearOnlyPatch 1).source = "auto") :=
  ⟨claim_C5_manual_invariant.1 _
      (StrategyReachable.update _ seedPatch7 0 StrategyReachable.init) (by decide),
   claim_C5_manual_invariant.2 initialStrategy clearOnlyPatch 1 rfl
      (fun v h => by cases h)⟩

/-- C6 (counterexample): a patch providing invalid values for both fields
fails with invalid_farm_interval, not invalid_friend_interval, because
farmIntervalSec is validated first — so the claim that
an invalid friendIntervalSec always yields the friend-named error is
false. -/
theorem claim_C6_counterexample :
    bothInvalidPatch.friendIntervalSec = some (.num (-1)) ∧
    JSNum.le (.num (-1)) (.num 0) = true ∧
    updateRuntimeSettings config0 bothInvalidPatch = .error "invalid_farm_interval" ∧
    updateRuntimeSettings config0 bothInvalidPatch ≠ .error "invalid_friend_interval" := by
  have hle : JSNum.le (.num (-1)) (.num 0) = true := by norm_num [JSNum.le]
  have herr : updateRuntimeSettings config0 bothInvalidPatch
      = .error "invalid_farm_interval" := by
    simp [updateRuntimeSettings, bothInvalidPatch, validateInterval, hle, Bind.bind,
      Except.bind]
  refine ⟨rfl, hle, herr, ?_⟩
  intro hcontra
  rw [herr] at hcontra
  simp at hcontra

/-- C6 (amended): a provided farmIntervalSec that is not a finite number
greater than 0 always fails with invalid_farm_interval; a provided invalid
friendIntervalSec fails with invalid_friend_interval when farmIntervalSec
is absent or valid (farm is validated first); failure returns no new
configuration, so prior settings and shared configuration are unchanged; a
valid friendIntervalSec of 2.7 is floored to 2 and written back as 2000
milliseconds, and the farm field the patch omitted reads back unchanged. -/
theorem claim_C6_settings_validation :
    (∀ (c : SharedConfig) (p : SettingsPatch) (v : JSNum),
      p.farmIntervalSec = some v →
      (v.isFinite = false ∨ JSNum.le v (.num 0) = true) →
      updateRuntimeSettings c p = .error "invalid_farm_interval") ∧
    (∀ (c : SharedConfig) (p : SettingsPatch) (v : JSNum),
      p.friendIntervalSec = some v →
      (v.isFinite = false ∨ JSNum.le v (.num 0) = true) →
      (p.farmIntervalSec = none ∨
        ∃ w, p.farmIntervalSec = some w ∧ w.isFinite = true ∧
          JSNum.le w (.num 0) = false) →
      updateRuntimeSettings c p = .error "invalid_friend_interval") ∧
    (∀ c : SharedConfig,
      ∃ c2 : SharedConfig,
        updateRuntimeSettings c settingsPatch27 =
          .ok ({ farmIntervalSec := (getRuntimeSettings c).farmIntervalSec,
                 friendIntervalSec := .num 2 }, c2) ∧
        c2.friendCheckInterval = .num 2000 ∧
        getRuntimeSettings c2 =
          { farmIntervalSec := (getRuntimeSettings c).farmIntervalSec,
            friendIntervalSec := .num 2 }) := by
  refine ⟨?_, ?_, ?_⟩
  · intro c p v hp hv
    have hcond : (!v.isFinite || JSNum.le v (.num 0)) = true := by
      rcases hv with h | h <;> simp [h]
    simp [updateRuntimeSettings, validateInterval, hp, hcond, Bind.bind, Except.bind]
  · intro c p v hp hv hfarm
    have hcond : (!v.isFinite || JSNum.le v (.num 0)) = true := by
      rcases hv with h | h <;> simp [h]
    rcases hfarm with hf | ⟨w, hw, hwf, hwle⟩
    · simp [updateRuntimeSettings, validateInterval, hf, hp, hcond, Bind.bind, Except.bind]
    · have hwcond : (!w.isFinite || JSNum.le w (.num 0)) = false := by
        simp [hwf, hwle]
      simp [updateRuntimeSettings, validateInterval, hw, hp, hcond, hwcond, Bind.bind,
        Except.bind]
  · intro c
    have hval : validateInterval (some (.num (27/10))) (getRuntimeSettings c).friendIntervalSec
        "invalid_friend_interval" = .ok (.num 2) := by
      have hle : JSNum.le (.num (27/10)) (.num 0) = false := by
        norm_num [JSNum.le]
      have hfl : JSNum.floor (.num (27/10)) = .num 2 := by
        have h2 : (⌊(27:ℚ)/10⌋ : ℤ) = 2 := by
          rw [Int.floor_eq_iff]
          norm_num
        simp [JSNum.floor, h2]
      simp [validateInterval, JSNum.isFinite, hle, hfl]
      rw [JSNum.max, if_neg (by simp)]
      rw [show JSNum.lt (.num 1) (.num 2) = decide ((1:ℚ) < 2) from rfl]
      norm_num
    have h2000 : JSNum.mul (.num 2) (.num 1000) = .num 2000 := by norm_num [JSNum.mul]
    have hfriend : intervalSecOf (JSNum.mul (.num 2) (.num 1000)) = .num 2 := by
      rw [h2000, intervalSecOf_num_ne 2000 (by norm_num)]
      have hfl : (⌊(2000:ℚ)/1000 + 1/2⌋ : ℤ) = 2 := by
        rw [Int.floor_eq_iff]
        norm_num
      norm_num [hfl]
    have h1 : updateRuntimeSettings c settingsPatch27 =
        Except.ok
          ({ farmIntervalSec := (getRuntimeSettings c).farmIntervalSec,
             friendIntervalSec := .num 2 },
           { farmCheckInterval := JSNum.mul (getRuntimeSettings c).farmIntervalSec (.num 1000),
             friendCheckInterval := JSNum.mul (.num 2) (.num 1000) }) := by
      simp only [updateRuntimeSettings, settingsPatch27]
      rw [show validateInterval none (getRuntimeSettings c).farmIntervalSec
            "invalid_farm_interval" = .ok (getRuntimeSettings c).farmIntervalSec from rfl]
      rw [hval]
      rfl
    refine ⟨{ farmCheckInterval := JSNum.mul (getRuntimeSettings c).farmIntervalSec (.num 1000),
              friendCheckInterval := JSNum.mul (.num 2) (.num 1000) }, h1, ?_, ?_⟩
    · rw [h2000]
    · simp only [getRuntimeSettings]
      rw [RuntimeSettings.mk.injEq]
      exact ⟨intervalSecOf_roundtrip c.farmCheckInterval, hfriend⟩

/-- C6 witness: the farm validation failure and the friend 2.7 success
instantiated at a concrete configuration. -/
theorem claim_C6_settings_validation_witness :
    updateRuntimeSettings config0 { farmIntervalSec := some (.num (-1)) } =
      .error "invalid_farm_interval" ∧
    ∃ c2 : SharedConfig,
      updateRuntimeSettings config0 settingsPatch27 =
        .ok ({ farmIntervalSec := (getRuntimeSettings config0).farmIntervalSec,
               friendIntervalSec := .num 2 }, c2) ∧
      c2.friendCheckInterval = .num 2000 ∧
      getRuntimeSettings c2 =
        { farmIntervalSec := (getRuntimeSettings config0).farmIntervalSec,
          friendIntervalSec := .num 2 } :=
  ⟨claim_C6_settings_validation.1 config0 _ (.num (-1)) rfl (Or.inr (by decide)),
   claim_C6_settings_validation.2.2 config0⟩

/-- C7: for every state, progress function and uptime, buildMetrics with
uptime in the interval from 0 inclusive to 120 exclusive reports rateReady
false and zero expPerHour and goldPerHour regardless of the gains, and
with uptime at least 120 reports rateReady true and each per-hour rate as
the rounded gain divided by uptime over 3600. -/
theorem claim_C7_rate_gating (st : DashState) (fn : JSNum → JSNum → Progress) (u : ℚ) :
    (0 ≤ u ∧ u < 120 →
      (buildMetrics st fn u).rateReady = false ∧
      (buildMetrics st fn u).expPerHour = .num 0 ∧
      (buildMetrics st fn u).goldPerHour = .num 0) ∧
    (120 ≤ u →
      (buildMetrics st fn u).rateReady = true ∧
      (buildMetrics st fn u).expPerHour =
        JSNum.round (JSNum.div (expGainOf st) (.num (u / 3600))) ∧
      (buildMetrics st fn u).goldPerHour =
        JSNum.round (JSNum.div (goldGainOf st) (.num (u / 3600)))) := by
  constructor
  · rintro ⟨-, h1⟩
    have hr : ¬ (RATE_MIN_WINDOW_SEC ≤ u) := by
      rw [RATE_MIN_WINDOW_SEC]
      push_neg
      exact h1
    refine ⟨?_, ?_, ?_⟩ <;> simp [buildMetrics, hr]
  · intro h2
    have hr : RATE_MIN_WINDOW_SEC ≤ u := by
      rw [RATE_MIN_WINDOW_SEC]
      exact h2
    refine ⟨?_, ?_, ?_⟩ <;> simp [buildMetrics, hr, expGainOf, goldGainOf]

/-- C7 witness: the gating instantiated below the window at uptime 60 and
above it at uptime 7200. -/
theorem claim_C7_rate_gating_witness :
    (buildMetrics stateAfterAB zeroProgress 60).rateReady = false ∧
    (buildMetrics stateAfterAB zeroProgress 60).expPerHour = .num 0 ∧
    (buildMetrics stateAfterAB zeroProgress 7200).rateReady = true :=
  ⟨((claim_C7_rate_gating stateAfterAB zeroProgress 60).1 (by norm_num)).1,
   ((claim_C7_rate_gating stateAfterAB zeroProgress 60).1 (by norm_num)).2.1,
   ((claim_C7_rate_gating stateAfterAB zeroProgress 7200).2 (by norm_num)).1⟩

/-- C8 (counterexample): getStrategyConfig hands out the internal
lastDecision reference itself, so after a caller mutates the decision
object reached through the snapshot, the internal strategy state reads the
mutated object: the returned value is not a defensive snapshot of the
nested lastDecision field. -/
theorem claim_C8_counterexample :
    snap1.lastDecision = strat1.lastDecision ∧
    readLastDecision heap1 strat1 = some { atMs := 5, seedId := 7 } ∧
    readLastDecision heap2 strat1 = some { atMs := 5, seedId := 99 } ∧
    readLastDecision heap2 strat1 ≠ readLastDecision heap1 strat1 := by
  refine ⟨rfl, ?_, ?_, ?_⟩
  · simp [readLastDecision, heap1, recorded, recordStrategyDecision, strat1, writeHeap, heap0]
  · simp [readLastDecision, heap2, heap1, recorded, recordStrategyDecision, strat1, snap1,
      getStrategyConfig, writeHeap, heap0]
  · simp [readLastDecision, heap2, heap1, recorded, recordStrategyDecision, strat1, snap1,
      getStrategyConfig, writeHeap, heap0]

/-- C8 (amended): getStrategyConfig copies the scalar fields but returns
the nested lastDecision by reference: the snapshot's lastDecision is the
internal reference itself, and a caller writing through that shared
reference changes the decision the internal state subsequently reads. -/
theorem claim_C8_snapshot_aliasing (st : Strategy) (h : Heap) (r : ℕ) (d : DecisionObj)
    (hr : st.lastDecision = some r) :
    (getStrategyConfig st).lastDecision = st.lastDecision ∧
    readLastDecision (writeHeap h r d) st = some d ∧
    (d ≠ h r → readLastDecision (writeHeap h r d) st ≠ readLastDecision h st) := by
  refine ⟨rfl, ?_, ?_⟩
  · simp [readLastDecision, writeHeap, hr]
  · intro hd
    simp [readLastDecision, writeHeap, hr]
    exact hd

/-- C8 witness: the aliasing instantiated at the recorded decision. -/
theorem claim_C8_snapshot_aliasing_witness :
    (getStrategyConfig strat1).lastDecision = strat1.lastDecision ∧
    readLastDecision (writeHeap heap1 0 { atMs := 5, seedId := 99 }) strat1 =
      some { atMs := 5, seedId := 99 } ∧
    (({ atMs := 5, seedId := 99 } : DecisionObj) ≠ heap1 0 →
      readLastDecision (writeHeap heap1 0 { atMs := 5, seedId := 99 }) strat1 ≠
        readLastDecision heap1 strat1) :=
  claim_C8_snapshot_aliasing strat1 heap1 0 { atMs := 5, seedId := 99 } rfl

/-- C9 (counterexample): with the external progress function returning a
needed value of one half, the reported expNeeded is one half, which is not
at least 1 — the divisor is only replaced when falsy, not floored to 1. -/
theorem claim_C9_counterexample :
    (buildMetrics initialDashState halfNeededProgress 0).expNeeded = .num (1/2) ∧
    JSNum.le (.num 1) ((buildMetrics initialDashState halfNeededProgress 0).expNeeded)
      = false := by
  have h : (buildMetrics initialDashState halfNeededProgress 0).expNeeded = .num (1/2) := by
    rw [buildMetrics_expNeeded]
    norm_num [halfNeededProgress, JSNum.orElse, JSNum.truthy]
  refine ⟨h, ?_⟩
  rw [h]
  norm_num [JSNum.le]

/-- C9 (amended): for every state, progress function and uptime, the
expNeeded divisor is never 0 and never NaN — only falsy needed values are
replaced by 1, so the division current over needed is never a division by
zero — and expProgress is the clamped rounded percentage of expCurrent
over expNeeded. -/
theorem claim_C9_expNeeded_nonzero (st : DashState) (fn : JSNum → JSNum → Progress) (u : ℚ) :
    (buildMetrics st fn u).expNeeded ≠ .num 0 ∧
    (buildMetrics st fn u).expNeeded ≠ .nan ∧
    (buildMetrics st fn u).expNeeded =
      JSNum.orElse (fn (statusLevelOr0 st) (statusExpOr0 st)).needed (.num 1) ∧
    (buildMetrics st fn u).expProgress =
      JSNum.max (.num 0) (JSNum.min (.num 100)
        (JSNum.round (JSNum.mul
          (JSNum.div (buildMetrics st fn u).expCurrent (buildMetrics st fn u).expNeeded)
          (.num 100)))) :=
  ⟨(buildMetrics_expNeeded st fn u ▸ (orElse_one_ne_zero _).1),
   (buildMetrics_expNeeded st fn u ▸ (orElse_one_ne_zero _).2),
   buildMetrics_expNeeded st fn u,
   buildMetrics_expProgress st fn u⟩

/-- C10: a patch whose manualSeedId coerces to 0 without clearManual sets
manualSeedId to 0 and leaves source and manualSeedName unchanged; after
pinning seed 7 and then patching seed 0 the state has source manual with
manualSeedId 0; and without clearManual the source can only become auto if
it already was, and manualSeedName only empty if it already was. -/
theorem claim_C10_zero_seed_frame :
    (∀ (st : Strategy) (p : StrategyPatch) (now : ℚ) (v : JSNum),
      p.clearManual = false → p.manualSeedId = some v →
      JSNum.orElse v (.num 0) = .num 0 →
      (updateStrategyConfig st p now).manualSeedId = .num 0 ∧
      (updateStrategyConfig st p now).source = st.source ∧
      (updateStrategyConfig st p now).manualSeedName = st.manualSeedName) ∧
    ((updateStrategyConfig (updateStrategyConfig initialStrategy seedPatch7 0)
        zeroSeedPatch 1).source = "manual" ∧
     (updateStrategyConfig (updateStrategyConfig initialStrategy seedPatch7 0)
        zeroSeedPatch 1).manualSeedId = .num 0) ∧
    (∀ (st : Strategy) (p : StrategyPatch) (now : ℚ), p.clearManual = false →
      ((updateStrategyConfig st p now).source = "auto" → st.source = "auto") ∧
      ((updateStrategyConfig st p now).manualSeedName = "" → st.manualSeedName = "")) := by
  have hposfalse : ∀ p : StrategyPatch, ∀ v, p.manualSeedId = some v →
      JSNum.orElse v (.num 0) = .num 0 → patchSeedPositive p = false := by
    intro p v hm hv
    simp [patchSeedPositive, hm, hv, JSNum.lt]
  refine ⟨?_, ?_, ?_⟩
  · intro st p now v hc hm hv
    have hp := hposfalse p v hm hv
    rw [updateStrategyConfig_manualSeedId, updateStrategyConfig_source,
      updateStrategyConfig_manualSeedName]
    rw [hm]
    simp [hp, hc, hv]
  · constructor <;>
      simp [updateStrategyConfig, seedPatch7, zeroSeedPatch, initialStrategy,
        JSNum.orElse, JSNum.truthy, JSNum.lt]
  · intro st p now hc
    rw [updateStrategyConfig_source, updateStrategyConfig_manualSeedName]
    rw [hc]
    constructor
    · by_cases hp : patchSeedPositive p <;> simp [hp]
    · by_cases hp : patchSeedPositive p <;> simp [hp, strOrElse] <;> split_ifs <;> simp_all

/-- C10 witness: the frame conditions instantiated at the pinned-seed
state and the zero-seed patch. -/
theorem claim_C10_zero_seed_frame_witness :
    ((updateStrategyConfig (updateStrategyConfig initialStrategy seedPatch7 0)
        zeroSeedPatch 1).manualSeedId = .num 0 ∧
     (updateStrategyConfig (updateStrategyConfig initialStrategy seedPatch7 0)
        zeroSeedPatch 1).source =
       (updateStrategyConfig initialStrategy seedPatch7 0).source ∧
     (updateStrategyConfig (updateStrategyConfig initialStrategy seedPatch7 0)
        zeroSeedPatch 1).manualSeedName =
       (updateStrategyConfig initialStrategy seedPatch7 0).manualSeedName) ∧
    ((updateStrategyConfig (updateStrategyConfig initialStrategy seedPatch7 0)
        zeroSeedPatch 1).source = "auto" →
      (updateStrategyConfig initialStrategy seedPatch7 0).source = "auto") :=
  ⟨claim_C10_zero_seed_frame.1 (updateStrategyConfig initialStrategy seedPatch7 0)
      zeroSeedPatch 1 (.num 0) rfl rfl (by decide),
   (claim_C10_zero_seed_frame.2.2 (updateStrategyConfig initialStrategy seedPatch7 0)
      zeroSeedPatch 1 rfl).1⟩

end QQFarm
